import Mathlib

/-!
Verification of the server lifecycle core of `notebookapp.py` (the IPython
notebook server): port acquisition, the SIGINT confirmation state machine,
kernel teardown and the start/cleanup sequence.  Each definition is a
shallow embedding of the corresponding Python function; theorems settle the
spec's claims about them.
-/

namespace Notebook

/-- Outcome of one call to the bind primitive `http_server.listen(port, ip)`
on a given port: success, `socket.error` with `errno == EADDRINUSE`, or a
`socket.error` with any other errno. -/
inductive BindResult where
  | success : BindResult
  | addrInUse : BindResult
  | otherError (errno : Nat) : BindResult
deriving DecidableEq, Repr

/-- The configurable traits of `NotebookApp` that the lifecycle core reads.
Python truthiness on the string traits is emptiness. -/
structure Config where
  ip : String
  port : Int
  certfile : String
  keyfile : String
  password : String
  read_only : Bool
  open_browser : Bool
  browser : String
  base_project_url : String
deriving DecidableEq, Repr

/-- The trait-change hook `_ip_changed`: assigning an asterisk to the `ip` trait
immediately rewrites it to the empty string (the re-assignment re-fires the
hook with the empty string, a no-op). -/
def setIp (c : Config) (new : String) : Config :=
  if new = "*" then { c with ip := "" } else { c with ip := new }

/-- The ssl_options construction of `init_webapp`: `certfile` (when non-empty)
plus `keyfile` only when both are non-empty. -/
def sslOptions (c : Config) : Option (String × Option String) :=
  if c.certfile ≠ "" then
    some (c.certfile, if c.keyfile ≠ "" then some c.keyfile else none)
  else none

/-- The condition of `init_webapp`'s critical security log:
`ssl_options is None and not self.ip and not (self.read_only and not self.password)`. -/
def securityWarning (c : Config) : Bool :=
  (sslOptions c).isNone && (c.ip = "") && !(c.read_only && c.password = "")

/-- Attempt budget: `n = 50  # Max number of attempts` in `init_webapp`. -/
def maxAttempts : Nat := 50

/-- The candidate-port sequence of `init_webapp`:
`range(self.port, self.port+5) + [self.port + randint(-2*n, 2*n) for i in range(n-5)]`.
`rand i` stands for the `i`-th value drawn by `randint(-2*n, 2*n)`. -/
def codeCandidates (port : Int) (rand : Nat → Int) : List Int :=
  ((List.range 5).map fun i => port + (i : Int)) ++
    ((List.range (maxAttempts - 5)).map fun i => port + rand i)

/-- The `for port in ...: try: listen ...` loop: success fixes the port and
breaks; `EADDRINUSE` moves to the next candidate; any other `socket.error`
re-raises (`.error e`); exhausting the list falls through silently
(`.ok none` — no port fixed, no exception). -/
def listenLoop (bind : Int → BindResult) : List Int → Except Nat (Option Int)
  | [] => .ok none
  | p :: rest =>
    match bind p with
    | .success => .ok (some p)
    | .addrInUse => listenLoop bind rest
    | .otherError e => .error e

/-- The ports on which the loop actually calls the bind primitive (it stops
attempting after a success and after a non-`EADDRINUSE` error). -/
def attemptedPorts (bind : Int → BindResult) : List Int → List Int
  | [] => []
  | p :: rest =>
    match bind p with
    | .success => [p]
    | .addrInUse => p :: attemptedPorts bind rest
    | .otherError _ => [p]

/-- The ports for which the loop emits the
already-in-use log line. -/
def inUseLogged (bind : Int → BindResult) : List Int → List Int
  | [] => []
  | p :: rest =>
    match bind p with
    | .success => []
    | .addrInUse => p :: inUseLogged bind rest
    | .otherError _ => []

/-- Observable outcome of `init_webapp`: whether the security warning was
logged, the final value of `self.port`, the port a socket is bound to (if
any), and a propagated errno when a bind failure re-raised. -/
structure WebappResult where
  warned : Bool
  port : Int
  bound : Option Int
  error : Option Nat
deriving DecidableEq, Repr

/-- The function `init_webapp` after the handler/ssl setup: emit (or not) the security
warning, then run the listen loop over the candidate ports. -/
def initWebapp (c : Config) (bind : Int → BindResult) (rand : Nat → Int) :
    WebappResult :=
  match listenLoop bind (codeCandidates c.port rand) with
  | .ok (some p) => { warned := securityWarning c, port := p, bound := some p, error := none }
  | .ok none => { warned := securityWarning c, port := c.port, bound := none, error := none }
  | .error e => { warned := securityWarning c, port := c.port, bound := none, error := some e }

/-- The display host of `start()`: `self.ip` when non-empty, else the all-interfaces placeholder. -/
def displayHost (c : Config) : String :=
  if c.ip = "" then "[all ip addresses on your system]" else c.ip

/-- The browser-launch host of `start()`: `self.ip` when non-empty, else `127.0.0.1`. -/
def browserHost (c : Config) : String :=
  if c.ip = "" then "127.0.0.1" else c.ip

/-- The URL scheme of `start()`: `https` when a certfile is configured, else `http`. -/
def proto (c : Config) : String :=
  if c.certfile = "" then "http" else "https"

/-! ## Signal coordinator -/

/-- The two SIGINT handlers the app installs: `_handle_sigint` (the original
one installed by `init_signal`) and `_signal_stop`. -/
inductive Handler where
  | handleSigint
  | signalStop
deriving DecidableEq, Repr

/-- The process-wide state the signal code mutates: the installed SIGINT
handler, how many confirmation threads have been spawned, whether one is
still outstanding, and how many `IOLoop.instance().stop()` requests were
issued. -/
structure SigState where
  sigintHandler : Handler
  confirmTasksSpawned : Nat
  confirmOutstanding : Bool
  loopStopRequests : Nat
deriving DecidableEq, Repr

/-- State right after `init_signal`: `_handle_sigint` installed, no thread,
no stop request. -/
def initialSigState : SigState :=
  { sigintHandler := .handleSigint, confirmTasksSpawned := 0,
    confirmOutstanding := false, loopStopRequests := 0 }

/-- The handler `_handle_sigint`: re-register `_signal_stop` for the double-interrupt case, then
spawn the `_confirm_exit` daemon thread. -/
def handleSigintRun (s : SigState) : SigState :=
  { s with sigintHandler := .signalStop,
           confirmTasksSpawned := s.confirmTasksSpawned + 1,
           confirmOutstanding := true }

/-- The handler `_signal_stop`: log and `IOLoop.instance().stop()`. -/
def signalStopRun (s : SigState) : SigState :=
  { s with loopStopRequests := s.loopStopRequests + 1 }

/-- Delivering SIGINT runs whichever handler is currently registered. -/
def deliverSigint (s : SigState) : SigState :=
  match s.sigintHandler with
  | .handleSigint => handleSigintRun s
  | .signalStop => signalStopRun s

/-- The spec's three-state abstraction of the coordinator, read off the
concrete state: a stop request means `ForcedStop`, an outstanding
confirmation thread means `ConfirmPending`, otherwise `Normal`. -/
inductive SigMode where
  | Normal
  | ConfirmPending
  | ForcedStop
deriving DecidableEq, Repr

/-- Abstraction map from concrete signal state to the spec's mode. -/
def sigMode (s : SigState) : SigMode :=
  if s.loopStopRequests > 0 then .ForcedStop
  else if s.confirmOutstanding then .ConfirmPending
  else .Normal

/-- The `select.select([sys.stdin], [], [], 5)` timeout in `_confirm_exit`. -/
def confirmTimeoutSeconds : Nat := 5

/-- The affirmative test in `_confirm_exit`: the lowered line starts with `y`. -/
def isYes (line : String) : Bool :=
  line.toLower.startsWith "y"

/-- What the `_confirm_exit` thread does, observably: whether it called
`IOLoop.instance().stop()` itself, how many restore callbacks it enqueued
with `IOLoop.instance().add_callback(self._restore_sigint_handler)`, and how
many times it called `signal.signal` directly from its own thread. -/
structure ConfirmEffect where
  loopStopped : Bool
  restoreCallbacksEnqueued : Nat
  directSignalCalls : Nat
deriving DecidableEq, Repr

/-- The thread body `_confirm_exit` on the outcome of the 5-second readiness wait:
`none` is a timeout (stdin not readable within 5s); `some line` is the line
`sys.stdin.readline()` returned after the wait reported readiness. An
affirmative line stops the loop and returns; anything else falls through to
`add_callback(self._restore_sigint_handler)`. -/
def confirmExit (input : Option String) : ConfirmEffect :=
  match input with
  | some line =>
    if isYes line then
      { loopStopped := true, restoreCallbacksEnqueued := 0, directSignalCalls := 0 }
    else
      { loopStopped := false, restoreCallbacksEnqueued := 1, directSignalCalls := 0 }
  | none =>
    { loopStopped := false, restoreCallbacksEnqueued := 1, directSignalCalls := 0 }

/-- Applying a finished confirmation thread's effect to the signal state:
the thread ends (`confirmOutstanding := false`), its stop call (if any) is
counted, and once the event loop runs an enqueued restore callback,
`_restore_sigint_handler` re-installs `_handle_sigint`. -/
def applyEffect (s : SigState) (e : ConfirmEffect) : SigState :=
  let s1 := { s with confirmOutstanding := false }
  let s2 :=
    if e.loopStopped then { s1 with loopStopRequests := s1.loopStopRequests + 1 } else s1
  if e.restoreCallbacksEnqueued > 0 then { s2 with sigintHandler := .handleSigint } else s2

/-! ## Kernel teardown -/

/-- The method `cleanup_kernels`: snapshot `list(km.kernel_ids)` and kill each id in
the snapshot.  `killEffect` is the kernel manager's `kill_kernel`, an
arbitrary mutation of the registry (it deletes keys).  Returns the final
registry and the list of kill requests issued, in order. -/
def cleanupKernels (reg : List String)
    (killEffect : List String → String → List String) :
    List String × List String :=
  let snapshot := reg
  (snapshot.foldl killEffect reg, snapshot)

/-! ## start() -/

/-- How `ioloop.IOLoop.instance().start()` exits: returns after a stop
request, raises `KeyboardInterrupt`, or raises some other exception. -/
inductive LoopExit where
  | normal
  | keyboardInterrupt
  | otherError (e : Nat)
deriving DecidableEq, Repr

/-- Exceptions that can escape `start()`. -/
inductive Exc where
  | webbrowserError
  | loopError (e : Nat)
deriving DecidableEq, Repr

/-- Outcome of the `try: loop.start() except KeyboardInterrupt: ...
finally: self.cleanup_kernels()` block. -/
structure LoopPhase where
  interruptLogged : Bool
  cleanupRan : Bool
  raised : Option Exc
deriving DecidableEq, Repr

/-- The try/except/finally of `start()`: `KeyboardInterrupt` is caught and
logged; any other exception propagates; the `finally` clause runs
`cleanup_kernels` on every path. -/
def runLoopAndCleanup : LoopExit → LoopPhase
  | .normal => { interruptLogged := false, cleanupRan := true, raised := none }
  | .keyboardInterrupt => { interruptLogged := true, cleanupRan := true, raised := none }
  | .otherError e => { interruptLogged := false, cleanupRan := true, raised := some (.loopError e) }

/-- Observable outcome of `start()`. -/
structure StartOutcome where
  urlLogged : Bool
  browserThreadSpawned : Bool
  browserOpenAttempts : Nat
  browserFailureLogged : Bool
  loopRan : Bool
  interruptLogged : Bool
  cleanupRan : Bool
  raised : Option Exc
deriving DecidableEq, Repr

/-- The method `start()`: log the URL; if `open_browser`, call `webbrowser.get` on the
main thread (`lookupOk = false` means it raised `webbrowser.Error`, which
propagates before the try/finally is entered), else spawn a daemon-less
thread whose single `browser.open` call can fail (`openFails`) — an
exception there dies with the thread, leaving only a stderr traceback; then
run the loop inside try/except/finally. -/
def startApp (c : Config) (lookupOk : Bool) (openFails : Bool)
    (exit_ : LoopExit) : StartOutcome :=
  if c.open_browser then
    if lookupOk then
      let o := runLoopAndCleanup exit_
      { urlLogged := true, browserThreadSpawned := true, browserOpenAttempts := 1,
        browserFailureLogged := openFails, loopRan := true,
        interruptLogged := o.interruptLogged, cleanupRan := o.cleanupRan,
        raised := o.raised }
    else
      { urlLogged := true, browserThreadSpawned := false, browserOpenAttempts := 0,
        browserFailureLogged := false, loopRan := false,
        interruptLogged := false, cleanupRan := false,
        raised := some .webbrowserError }
  else
    let o := runLoopAndCleanup exit_
    { urlLogged := true, browserThreadSpawned := false, browserOpenAttempts := 0,
      browserFailureLogged := false, loopRan := true,
      interruptLogged := o.interruptLogged, cleanupRan := o.cleanupRan,
      raised := o.raised }

/-! ## Spec-side definitions, for comparison with the code -/

/-- A port clamped to the valid port range, as the spec's words require
("clamped to the valid port range"). -/
def clampPort (p : Int) : Int :=
  max 1 (min 65535 p)

/-- The candidate sequence exactly as the claim words it: the preferred
port, the next four consecutive ports, then up to `maxAttempts` (50)
additional independently drawn random ports, each clamped to the valid port
range.  Written from the spec, to be compared with `codeCandidates`. -/
def specC2Candidates (port : Int) (rand : Nat → Int) : List Int :=
  ((List.range 5).map fun i => port + (i : Int)) ++
    ((List.range maxAttempts).map fun i => clampPort (port + rand i))

/-- The warning condition exactly as the claim words it: no TLS configured,
bind host means "all interfaces", and (no password is set OR read-only mode
is off).  Written from the spec, to be compared with `securityWarning`. -/
def specC3Warn (c : Config) : Bool :=
  (sslOptions c).isNone && (c.ip = "") && (c.password = "" || !c.read_only)

/-! ## Concrete fixtures used by closed theorems -/

/-- A default-like configuration: all interfaces, no TLS, no password. -/
def cfgOpen : Config :=
  { ip := "", port := 8888, certfile := "", keyfile := "", password := "",
    read_only := false, open_browser := true, browser := "",
    base_project_url := "/" }

/-- All interfaces, no TLS, read-only on, no password. -/
def cfgReadOnlyNoPw : Config :=
  { ip := "", port := 8888, certfile := "", keyfile := "", password := "",
    read_only := true, open_browser := true, browser := "",
    base_project_url := "/" }

/-- A bind oracle where port 8888 is occupied and every other port fails
with `EACCES` (errno 13), a non-contention error. -/
def bindInUseThenFatal : Int → BindResult :=
  fun q => if q = 8888 then .addrInUse else .otherError 13

/-- A kill effect where stopping any kernel also removes kernel `"B"` from
the registry (the spec's "stopping A removes B concurrently" scenario). -/
def killAlsoRemovesB : List String → String → List String :=
  fun r kid => (r.erase kid).erase "B"

/-! ## Theorems -/

/-- C1: the claim says exhausting the attempt budget fails with
`BindError{reason: "no available port"}` and aborts startup.  The code does
not: when every one of the 50 candidates reports address-in-use, the `for`
loop falls through with no exception (`error = none`), no bound socket
(`bound = none`), and `self.port` untouched — startup continues with no
listener.  The "no bound socket left behind" half of the claim does hold. -/
theorem C1_exhaustion_no_bind_error :
    initWebapp cfgOpen (fun _ => .addrInUse) (fun _ => 0) =
      { warned := true, port := 8888, bound := none, error := none } := by
  decide

/-- C2 counterexample: the claim's candidate sequence (5 deterministic then
50 clamped random attempts) differs from the code's: the code draws only
`n - 5 = 45` random candidates (50 attempts total, not 55), and does not
clamp — with preferred port 50 and a draw of −100 the candidate is the
invalid port −50. -/
theorem C2_counterexample :
    (codeCandidates 8888 (fun _ => 0)).length = 50 ∧
    (specC2Candidates 8888 (fun _ => 0)).length = 55 ∧
    codeCandidates 8888 (fun _ => 0) ≠ specC2Candidates 8888 (fun _ => 0) ∧
    (-50 : Int) ∈ codeCandidates 50 (fun _ => -100) := by
  decide

/-- C2 amended: the candidates are the preferred port, then
`preferred+1 .. preferred+4` in order, followed by `maxAttempts - 5 = 45`
additional attempts, each `preferred + d` for an independently drawn
`d ∈ [-2*maxAttempts, 2*maxAttempts]`, used unclamped; nothing is
deduplicated (the list always has the full 50 entries), and each random
candidate lies in `[preferred - 100, preferred + 100]`. -/
theorem C2_amended_candidates (port : Int) (rand : Nat → Int)
    (h : ∀ i, -100 ≤ rand i ∧ rand i ≤ 100) :
    codeCandidates port rand =
      [port, port + 1, port + 2, port + 3, port + 4] ++
        (List.range 45).map (fun i => port + rand i) ∧
    (codeCandidates port rand).length = 50 ∧
    ∀ q ∈ (List.range 45).map (fun i => port + rand i),
      port - 100 ≤ q ∧ q ≤ port + 100 := by
  have h1 : codeCandidates port rand =
      [port, port + 1, port + 2, port + 3, port + 4] ++
        (List.range 45).map (fun i => port + rand i) := by
    have hr : List.range 5 = [0, 1, 2, 3, 4] := by decide
    simp only [codeCandidates, maxAttempts, hr, List.map_cons, List.map_nil]
    norm_num
  refine ⟨h1, ?_, ?_⟩
  · rw [h1]
    simp
  · intro q hq
    simp only [List.mem_map, List.mem_range] at hq
    obtain ⟨i, _, rfl⟩ := hq
    have := h i
    omega

/-- C2 amended, witnessed at port 8888 with every draw equal to 0. -/
theorem C2_amended_candidates_witness :
    (∀ i : Nat, -100 ≤ (fun _ => (0 : Int)) i ∧ (fun _ => (0 : Int)) i ≤ 100) ∧
    (codeCandidates 8888 (fun _ => 0)).length = 50 :=
  ⟨fun _ => by norm_num,
   (C2_amended_candidates 8888 (fun _ => 0) (fun _ => by norm_num)).2.1⟩

/-- C3 counterexample: with no TLS, all-interfaces host, read-only on and
no password, the claim's condition (no password OR read-only off) is true,
but the code does not warn: its condition is
`not (read_only and not password)`, i.e. read-only off OR a password set. -/
theorem C3_counterexample :
    securityWarning cfgReadOnlyNoPw = false ∧ specC3Warn cfgReadOnlyNoPw = true := by
  decide

/-- C3 amended: the critical warning is emitted iff no TLS is configured,
the bind host means "all interfaces", and (read-only mode is off OR a
password is set); it is advisory only — the binding outcome of
`init_webapp` depends only on the preferred port, the bind oracle and the
random draws, never on the warning condition. -/
theorem C3_amended_warning (c : Config) :
    (securityWarning c = true ↔
      sslOptions c = none ∧ c.ip = "" ∧ (c.read_only = false ∨ c.password ≠ "")) ∧
    ∀ (c' : Config) (bind : Int → BindResult) (rand : Nat → Int),
      c'.port = c.port →
      (initWebapp c' bind rand).bound = (initWebapp c bind rand).bound ∧
      (initWebapp c' bind rand).error = (initWebapp c bind rand).error := by
  constructor
  · cases hro : c.read_only <;> by_cases hpw : c.password = "" <;>
      simp [securityWarning, hro, hpw, Option.isNone_iff_eq_none, and_assoc]
  · intro c' bind rand hp
    simp only [initWebapp, hp]
    rcases listenLoop bind (codeCandidates c.port rand) with e | o
    · exact ⟨rfl, rfl⟩
    · rcases o with _ | p
      · exact ⟨rfl, rfl⟩
      · exact ⟨rfl, rfl⟩

/-- C3 amended, witnessed on the open default configuration. -/
theorem C3_amended_warning_witness :
    cfgOpen.port = cfgOpen.port ∧
    (initWebapp cfgOpen (fun _ => .addrInUse) (fun _ => 0)).bound =
      (initWebapp cfgOpen (fun _ => .addrInUse) (fun _ => 0)).bound :=
  ⟨rfl, ((C3_amended_warning cfgOpen).2 cfgOpen (fun _ => .addrInUse)
    (fun _ => 0) rfl).1⟩

/-- C4: from any `Normal` state (original handler installed, no outstanding
confirmation, no stop request), one SIGINT re-registers `_signal_stop` and
spawns a confirmation task (`ConfirmPending`); a second SIGINT while the
task is still outstanding goes straight to `ForcedStop`, issuing the
loop-stop request while the confirmation task remains unresolved. -/
theorem C4_double_sigint (s : SigState)
    (h1 : s.sigintHandler = .handleSigint)
    (h2 : s.confirmOutstanding = false)
    (h3 : s.loopStopRequests = 0) :
    sigMode s = .Normal ∧
    (deliverSigint s).sigintHandler = .signalStop ∧
    sigMode (deliverSigint s) = .ConfirmPending ∧
    (deliverSigint s).confirmTasksSpawned = s.confirmTasksSpawned + 1 ∧
    sigMode (deliverSigint (deliverSigint s)) = .ForcedStop ∧
    (deliverSigint (deliverSigint s)).loopStopRequests = 1 ∧
    (deliverSigint (deliverSigint s)).confirmOutstanding = true := by
  simp [sigMode, deliverSigint, handleSigintRun, signalStopRun, h1, h2, h3]

/-- C4, witnessed at the state installed by `init_signal`. -/
theorem C4_double_sigint_witness :
    initialSigState.sigintHandler = .handleSigint ∧
    sigMode (deliverSigint (deliverSigint initialSigState)) = .ForcedStop :=
  ⟨rfl, (C4_double_sigint initialSigState rfl rfl rfl).2.2.2.2.1⟩

/-- C5: the readiness wait on stdin is bounded by 5 seconds; the thread
never calls `signal.signal` itself.  A line starting with `y`/`Y` stops the
loop directly (state `ForcedStop`, no restore enqueued).  On timeout or any
other line, exactly one restore callback is enqueued onto the event loop,
and once it runs the original handler is back and the state is `Normal`. -/
theorem C5_confirm_exit (s : SigState) (input : Option String)
    (h : s.loopStopRequests = 0) :
    confirmTimeoutSeconds = 5 ∧
    (confirmExit input).directSignalCalls = 0 ∧
    (match input with
     | some line =>
       if isYes line = true then
         (confirmExit input).loopStopped = true ∧
         (confirmExit input).restoreCallbacksEnqueued = 0 ∧
         sigMode (applyEffect s (confirmExit input)) = .ForcedStop
       else
         (confirmExit input).loopStopped = false ∧
         (confirmExit input).restoreCallbacksEnqueued = 1 ∧
         (applyEffect s (confirmExit input)).sigintHandler = .handleSigint ∧
         sigMode (applyEffect s (confirmExit input)) = .Normal
     | none =>
       (confirmExit input).loopStopped = false ∧
       (confirmExit input).restoreCallbacksEnqueued = 1 ∧
       (applyEffect s (confirmExit input)).sigintHandler = .handleSigint ∧
       sigMode (applyEffect s (confirmExit input)) = .Normal) := by
  refine ⟨rfl, ?_, ?_⟩
  · rcases input with _ | line
    · rfl
    · by_cases hy : isYes line <;> simp [confirmExit, hy]
  · rcases input with _ | line
    · simp [confirmExit, applyEffect, sigMode, h]
    · by_cases hy : isYes line <;>
        simp [confirmExit, applyEffect, sigMode, h, hy]

/-- C5, witnessed at the initial state with an affirmative answer. -/
theorem C5_confirm_exit_witness :
    initialSigState.loopStopRequests = 0 ∧
    (confirmExit (some "y")).directSignalCalls = 0 :=
  ⟨rfl, (C5_confirm_exit initialSigState (some "y") rfl).2.1⟩

/-- C6: `cleanup_kernels` iterates over the copy `list(km.kernel_ids)`
taken before any kill; the kill requests issued are exactly that snapshot,
whatever `kill_kernel` does to the registry, and since registry keys are
distinct every snapshot id receives exactly one stop request. -/
theorem C6_cleanup_snapshot (reg : List String)
    (killEffect : List String → String → List String)
    (h : reg.Nodup) :
    (cleanupKernels reg killEffect).2 = reg ∧
    ∀ kid ∈ reg, ((cleanupKernels reg killEffect).2).count kid = 1 := by
  refine ⟨rfl, ?_⟩
  intro kid hk
  simpa [cleanupKernels] using List.count_eq_one_of_mem h hk

/-- C6, witnessed on registry `{A, B, C}` with a kill effect where stopping
any kernel also removes `B`. -/
theorem C6_cleanup_snapshot_witness :
    (["A", "B", "C"] : List String).Nodup ∧
    (cleanupKernels ["A", "B", "C"] killAlsoRemovesB).2.count "B" = 1 :=
  ⟨by decide,
   (C6_cleanup_snapshot ["A", "B", "C"] killAlsoRemovesB (by decide)).2 "B"
     (by decide)⟩

/-- C7: however the loop run exits — normal stop, `KeyboardInterrupt`, or
any other exception — the `finally` clause runs `cleanup_kernels`; a
keyboard interrupt is additionally caught and does not propagate.  The same
holds through `start()` whenever the loop phase is entered. -/
theorem C7_cleanup_unconditional (x : LoopExit) :
    (runLoopAndCleanup x).cleanupRan = true ∧
    (startApp cfgOpen true false x).cleanupRan = true ∧
    (runLoopAndCleanup .keyboardInterrupt).raised = none := by
  cases x <;> simp [runLoopAndCleanup, startApp, cfgOpen]

/-- C8: a candidate failing with `EADDRINUSE` is logged and the loop moves
on to the remaining candidates; a candidate failing with any other errno
re-raises at once — only that one port was attempted, the rest of the
budget is never consulted. -/
theorem C8_bind_error_policy (bind : Int → BindResult) (p : Int)
    (rest : List Int) :
    (bind p = .addrInUse →
      listenLoop bind (p :: rest) = listenLoop bind rest ∧
      inUseLogged bind (p :: rest) = p :: inUseLogged bind rest) ∧
    (∀ e, bind p = .otherError e →
      listenLoop bind (p :: rest) = .error e ∧
      attemptedPorts bind (p :: rest) = [p] ∧
      inUseLogged bind (p :: rest) = []) := by
  constructor
  · intro h
    constructor <;> simp [listenLoop, inUseLogged, h]
  · intro e h
    refine ⟨?_, ?_, ?_⟩ <;> simp [listenLoop, attemptedPorts, inUseLogged, h]

/-- C8, witnessed with port 8888 occupied and every other port failing
with errno 13: the first candidate is skipped with a log, the second
aborts the scan with the fatal error. -/
theorem C8_bind_error_policy_witness :
    bindInUseThenFatal 8888 = .addrInUse ∧
    listenLoop bindInUseThenFatal [8888, 8889] = .error 13 := by
  refine ⟨by decide, ?_⟩
  have h1 := (C8_bind_error_policy bindInUseThenFatal 8888 [8889]).1 (by decide)
  have h2 := (C8_bind_error_policy bindInUseThenFatal 8889 []).2 13 (by decide)
  rw [h1.1, h2.1]

/-- C9 counterexample: with `open_browser` on, a failure of
`webbrowser.get` (no usable browser) happens on the main thread before the
try/finally: the exception propagates out of `start()`, the event loop
never runs and `cleanup_kernels` is skipped — a browser-launch failure that
is fatal to the server, contrary to the claim. -/
theorem C9_counterexample :
    cfgOpen.open_browser = true ∧
    (startApp cfgOpen false false .normal).loopRan = false ∧
    (startApp cfgOpen false false .normal).cleanupRan = false ∧
    (startApp cfgOpen false false .normal).raised = some .webbrowserError := by
  decide

/-- C9 amended: once `webbrowser.get` has succeeded, the single
`browser.open` attempt runs on a detached thread: its failure changes
nothing observable but the stderr traceback — the loop runs, teardown runs,
what `start()` raises is decided by the loop phase alone, and the open is
attempted exactly once (never retried). -/
theorem C9_browser_isolation (c : Config) (hc : c.open_browser = true)
    (openFails : Bool) (x : LoopExit) :
    (startApp c true openFails x).loopRan = true ∧
    (startApp c true openFails x).cleanupRan = true ∧
    (startApp c true openFails x).browserOpenAttempts = 1 ∧
    (startApp c true openFails x).raised = (runLoopAndCleanup x).raised ∧
    startApp c true openFails x =
      { startApp c true false x with browserFailureLogged := openFails } := by
  cases x <;> simp [startApp, runLoopAndCleanup, hc]

/-- C9 amended, witnessed on the default configuration with a failing
browser open. -/
theorem C9_browser_isolation_witness :
    cfgOpen.open_browser = true ∧
    (startApp cfgOpen true true .normal).cleanupRan = true :=
  ⟨rfl, (C9_browser_isolation cfgOpen rfl true .normal).2.1⟩

/-- C10: the `ip` trait never holds a literal asterisk — assigning one
rewrites it to the empty string at once, so the security-warning condition,
the displayed host and the browser-launch host all behave identically for
an asterisk and for an empty `ip`. -/
theorem C10_ip_star_rewritten (c : Config) (s : String) :
    (setIp c s).ip ≠ "*" ∧
    setIp c "*" = setIp c "" ∧
    securityWarning (setIp c "*") = securityWarning (setIp c "") ∧
    displayHost (setIp c "*") = displayHost (setIp c "") ∧
    browserHost (setIp c "*") = browserHost (setIp c "") := by
  have he : setIp c "*" = setIp c "" := by
    simp [setIp]
  refine ⟨?_, he, by rw [he], by rw [he], by rw [he]⟩
  by_cases hs : s = "*" <;> simp [setIp, hs]

end Notebook
